import Mathlib

/-!
Shallow embedding of the notebook `05-agentic-rag/code_samples/05-azure-ai-agent.ipynb`.

The notebook is glue around a remote agent service.  We model the remote side
as an oracle (`Service` for runs, `DeleteBehavior` for deletions,
`RemoteStore` for provisioning) and the client-side code as functions that
return the list of remote calls issued (`Event`) together with an
`Except`-style outcome, mirroring Python exception propagation.

Client-side functions embedded from the source:
- `build_augmented_prompt` (cell defining `PromptPlugin`),
- `process_query` (the async query-processing function),
- `run_loop` / `teardown` / `main_run` (the `main` function: the
  `for user_query in user_inputs` loop inside `try`, and the `finally` block),
- `provision` (the provisioning cell calling `upload_file_and_poll` and
  `create_vector_store_and_poll`).
-/

/-- Role tag of a message, mirroring `AuthorRole` from semantic_kernel
(the code only ever passes `AuthorRole.USER`; the remote agent produces
assistant messages). -/
inductive AuthorRole where
  | USER
  | ASSISTANT
  deriving DecidableEq, Repr

/-- One content block of a message: a type tag (the JSON field "type") and
the text payload (the JSON path content.text.value, read only when the
type tag is "text"). -/
structure ContentBlock where
  ctype : String
  value : String
  deriving DecidableEq, Repr

/-- A message of the conversation thread: role plus content blocks. -/
structure Message where
  role : AuthorRole
  content : List ContentBlock
  deriving DecidableEq, Repr

/-- The remote thread state: messages in chronological order (oldest first).
`list_messages` returns them newest-first, modelled by `List.reverse`. -/
structure ThreadState where
  messages : List Message
  deriving DecidableEq, Repr

/-- File purpose tag passed to `upload_file_and_poll` (the code uses
`FilePurpose.AGENTS`). -/
inductive FilePurpose where
  | AGENTS
  deriving DecidableEq, Repr

/-- One remote call issued by the client code, in the order issued. -/
inductive Event where
  | createMessage (threadId : String) (role : AuthorRole) (content : String)
  | createRun (threadId : String) (agentId : String)
  | listMessages (threadId : String)
  | uploadFile (path : String) (purpose : FilePurpose) (resultFileId : String)
  | createVectorStore (fileIds : List String) (name : String) (resultStoreId : String)
  | deleteThread (threadId : String)
  | deleteAgent (agentId : String)
  | deleteFile (fileId : String)
  | deleteVectorStore (storeId : String)
  deriving DecidableEq, Repr

/-- Oracle for `create_and_process_run`: given the chronological thread
content at run time, either the run fails (exception) or it appends a list
of new messages (possibly empty) to the thread. -/
structure Service where
  runResult : List Message → Except String (List Message)

/-- Oracle for the four deletion calls of the `finally` block: each either
succeeds or raises. -/
structure DeleteBehavior where
  delThread : Except String Unit
  delAgent : Except String Unit
  delFile : Except String Unit
  delStore : Except String Unit

/-- Oracle for `upload_file_and_poll` / `create_vector_store_and_poll`. -/
structure UploadedFile where
  id : String
  deriving DecidableEq, Repr

/-- The vector store object returned by `create_vector_store_and_poll`:
its id and the member file ids it was created over. -/
structure VectorStore where
  id : String
  file_ids : List String
  deriving DecidableEq, Repr

/-- Remote file-store and vector-index oracle used by the provisioning cell. -/
structure RemoteStore where
  upload : String → FilePurpose → UploadedFile
  createStore : List String → String → String

/-- The user message appended by `create_message(thread_id, role=USER,
content=user_query)`: one text content block holding the raw query. -/
def userMessage (user_query : String) : Message :=
  ⟨AuthorRole.USER, [⟨"text", user_query⟩]⟩

/-- The extraction step of `process_query`: `main_data = messages.get('data', [])`;
if nonempty, take `main_data[0]` (the most recent message, since the list is
newest-first) and print the value of every content block whose type is "text". -/
def first_msg_text_values (data : List Message) : List String :=
  match data with
  | [] => []
  | first_msg :: _ =>
    (first_msg.content.filter (fun c => c.ctype == "text")).map (fun c => c.value)

/-- Embedding of `process_query`: append a user message with the raw query,
trigger a run (which may raise), then list messages newest-first and print the
text blocks of the most recent message.  Returns the events issued and either
the error or the new thread state together with the emitted answer texts. -/
def process_query (svc : Service) (thread_id agent_id : String)
    (user_query : String) (st : ThreadState) :
    List Event × Except String (ThreadState × List String) :=
  match svc.runResult (st.messages ++ [userMessage user_query]) with
  | Except.error e =>
    ([Event.createMessage thread_id AuthorRole.USER user_query,
      Event.createRun thread_id agent_id],
     Except.error e)
  | Except.ok newMessages =>
    ([Event.createMessage thread_id AuthorRole.USER user_query,
      Event.createRun thread_id agent_id,
      Event.listMessages thread_id],
     Except.ok
       (⟨st.messages ++ [userMessage user_query] ++ newMessages⟩,
        first_msg_text_values
          (st.messages ++ [userMessage user_query] ++ newMessages).reverse))

/-- Embedding of the `for user_query in user_inputs` loop of `main`:
queries processed strictly in order; an exception aborts the remaining
queries and propagates. -/
def run_loop (svc : Service) (thread_id agent_id : String) :
    ThreadState → List String → List Event × Except String ThreadState
  | st, [] => ([], Except.ok st)
  | st, q :: rest =>
    match process_query svc thread_id agent_id q st with
    | (evs, Except.error e) => (evs, Except.error e)
    | (evs, Except.ok (st', _)) =>
      let r := run_loop svc thread_id agent_id st' rest
      (evs ++ r.1, r.2)

/-- The thread state reached after processing a list of queries (meaningful
when every run succeeds, see `runsOkB`). -/
def stateAfter (svc : Service) (thread_id agent_id : String) :
    ThreadState → List String → ThreadState
  | st, [] => st
  | st, q :: rest =>
    match process_query svc thread_id agent_id q st with
    | (_, Except.ok (st', _)) => stateAfter svc thread_id agent_id st' rest
    | (_, Except.error _) => st

/-- Decidable predicate: every run along this query list succeeds. -/
def runsOkB (svc : Service) (thread_id agent_id : String) :
    ThreadState → List String → Bool
  | _, [] => true
  | st, q :: rest =>
    match process_query svc thread_id agent_id q st with
    | (_, Except.ok (st', _)) => runsOkB svc thread_id agent_id st' rest
    | (_, Except.error _) => false

/-- Embedding of the `finally` block of `main`: delete thread, then agent,
then uploaded file, then vector store, sequentially; an exception in one call
aborts the later calls and propagates. -/
def teardown (d : DeleteBehavior) (thread_id agent_id file_id store_id : String) :
    List Event × Except String Unit :=
  match d.delThread with
  | Except.error e => ([Event.deleteThread thread_id], Except.error e)
  | Except.ok _ =>
    match d.delAgent with
    | Except.error e =>
      ([Event.deleteThread thread_id, Event.deleteAgent agent_id], Except.error e)
    | Except.ok _ =>
      match d.delFile with
      | Except.error e =>
        ([Event.deleteThread thread_id, Event.deleteAgent agent_id,
          Event.deleteFile file_id], Except.error e)
      | Except.ok _ =>
        match d.delStore with
        | Except.error e =>
          ([Event.deleteThread thread_id, Event.deleteAgent agent_id,
            Event.deleteFile file_id, Event.deleteVectorStore store_id],
           Except.error e)
        | Except.ok _ =>
          ([Event.deleteThread thread_id, Event.deleteAgent agent_id,
            Event.deleteFile file_id, Event.deleteVectorStore store_id],
           Except.ok ())

/-- Embedding of the `try`/`finally` of `main`: run the query loop, then
always run the teardown; an exception raised inside `finally` replaces the
loop's exception, otherwise the loop's exception propagates. -/
def main_run (svc : Service) (d : DeleteBehavior)
    (thread_id agent_id file_id store_id : String)
    (st : ThreadState) (user_inputs : List String) :
    List Event × Except String Unit :=
  let loop := run_loop svc thread_id agent_id st user_inputs
  let td := teardown d thread_id agent_id file_id store_id
  (loop.1 ++ td.1,
   match td.2 with
   | Except.error e => Except.error e
   | Except.ok _ =>
     match loop.2 with
     | Except.error e => Except.error e
     | Except.ok _ => Except.ok ())

/-- Embedding of the provisioning cell: upload `document.md` with purpose
AGENTS, then create a vector store named "vector_store" over exactly the
singleton list of the returned file id. -/
def provision (r : RemoteStore) : List Event × UploadedFile × VectorStore :=
  let uploaded_file := r.upload "document.md" FilePurpose.AGENTS
  let store_id := r.createStore [uploaded_file.id] "vector_store"
  ([Event.uploadFile "document.md" FilePurpose.AGENTS uploaded_file.id,
    Event.createVectorStore [uploaded_file.id] "vector_store" store_id],
   uploaded_file, ⟨store_id, [uploaded_file.id]⟩)

/-- A remote resource created by this code. -/
inductive Resource where
  | file (id : String)
  | store (id : String)
  deriving DecidableEq, Repr

/-- The remote resources created by a list of events. -/
def createdResources (evs : List Event) : List Resource :=
  evs.filterMap (fun ev =>
    match ev with
    | Event.uploadFile _ _ fid => some (Resource.file fid)
    | Event.createVectorStore _ _ sid => some (Resource.store sid)
    | _ => none)

/-- Whether an event is one of the four deletion calls. -/
def isDeletion (ev : Event) : Bool :=
  match ev with
  | Event.deleteThread _ => true
  | Event.deleteAgent _ => true
  | Event.deleteFile _ => true
  | Event.deleteVectorStore _ => true
  | _ => false

/-- Whether an event is an append-message call. -/
def isCreateMessage (ev : Event) : Bool :=
  match ev with
  | Event.createMessage _ _ _ => true
  | _ => false

/-- Whether an event is a run call. -/
def isCreateRun (ev : Event) : Bool :=
  match ev with
  | Event.createRun _ _ => true
  | _ => false

/-- The fixed instruction appended by `build_augmented_prompt`. -/
def fallback_instruction : String :=
  "IMPORTANT: Answer ONLY based on the above context. If the context does not provide enough information, respond with \x27Insufficient context provided.\x27"

/-- Embedding of `PromptPlugin.build_augmented_prompt`: the f-string template
of the source, concatenating the retrieved context, the user query and the
fixed fallback instruction. -/
def build_augmented_prompt (query : String) (retrieval_context : String) : String :=
  ("Retrieved Context:\n" ++ retrieval_context ++ "\n\n") ++
  ("User Query: " ++ query ++ "\n\n") ++
  fallback_instruction

/-! Helper lemmas about the embedded definitions. -/

/-- When the run succeeds, `process_query` issues exactly the three calls
append-message, run, list-messages, and returns the extended thread state
and the extracted texts. -/
lemma process_query_ok_eq (svc : Service) (thread_id agent_id user_query : String)
    (st : ThreadState) (ms : List Message)
    (h : svc.runResult (st.messages ++ [userMessage user_query]) = Except.ok ms) :
    process_query svc thread_id agent_id user_query st =
      ([Event.createMessage thread_id AuthorRole.USER user_query,
        Event.createRun thread_id agent_id,
        Event.listMessages thread_id],
       Except.ok
         (⟨st.messages ++ [userMessage user_query] ++ ms⟩,
          first_msg_text_values
            (st.messages ++ [userMessage user_query] ++ ms).reverse)) := by
  simp [process_query, h]

/-- When the run fails, `process_query` has issued exactly the two calls
append-message and run, and propagates the error. -/
lemma process_query_error_eq (svc : Service) (thread_id agent_id user_query : String)
    (st : ThreadState) (e : String)
    (h : svc.runResult (st.messages ++ [userMessage user_query]) = Except.error e) :
    process_query svc thread_id agent_id user_query st =
      ([Event.createMessage thread_id AuthorRole.USER user_query,
        Event.createRun thread_id agent_id],
       Except.error e) := by
  simp [process_query, h]

/-- The per-query trace pattern of a successful query. -/
def query_trace (thread_id agent_id : String) (q : String) : List Event :=
  [Event.createMessage thread_id AuthorRole.USER q,
   Event.createRun thread_id agent_id,
   Event.listMessages thread_id]

/-- When every run succeeds, the loop trace is the concatenation of the
per-query patterns in input order, and the loop ends in the expected state. -/
lemma run_loop_ok_eq (svc : Service) (thread_id agent_id : String) :
    ∀ (qs : List String) (st : ThreadState),
      runsOkB svc thread_id agent_id st qs = true →
      run_loop svc thread_id agent_id st qs =
        (qs.flatMap (query_trace thread_id agent_id),
         Except.ok (stateAfter svc thread_id agent_id st qs)) := by
  intro qs
  induction qs with
  | nil => intro st _; simp [run_loop, stateAfter]
  | cons q rest ih =>
    intro st hok
    cases hR : svc.runResult (st.messages ++ [userMessage q]) with
    | error e =>
      rw [runsOkB, process_query_error_eq svc thread_id agent_id q st e hR] at hok
      simp at hok
    | ok ms =>
      rw [runsOkB, process_query_ok_eq svc thread_id agent_id q st ms hR] at hok
      rw [run_loop, process_query_ok_eq svc thread_id agent_id q st ms hR]
      rw [stateAfter, process_query_ok_eq svc thread_id agent_id q st ms hR]
      simp only [List.flatMap_cons]
      rw [ih _ hok]
      simp [query_trace]

/-- When every run along a prefix succeeds and the next query's run fails,
the loop over prefix ++ failing :: rest issues exactly the prefix's events
plus the failing query's events, and later queries contribute nothing. -/
lemma run_loop_error_eq (svc : Service) (thread_id agent_id : String) :
    ∀ (qs₁ : List String) (st : ThreadState) (q : String) (qs₂ : List String) (e : String),
      runsOkB svc thread_id agent_id st qs₁ = true →
      (process_query svc thread_id agent_id q
        (stateAfter svc thread_id agent_id st qs₁)).2 = Except.error e →
      run_loop svc thread_id agent_id st (qs₁ ++ q :: qs₂) =
        (qs₁.flatMap (query_trace thread_id agent_id) ++
           [Event.createMessage thread_id AuthorRole.USER q,
            Event.createRun thread_id agent_id],
         Except.error e) := by
  intro qs₁
  induction qs₁ with
  | nil =>
    intro st q qs₂ e _ hfail
    rw [stateAfter] at hfail
    cases hR : svc.runResult (st.messages ++ [userMessage q]) with
    | error e0 =>
      rw [process_query_error_eq svc thread_id agent_id q st e0 hR] at hfail
      simp at hfail
      subst hfail
      simp [run_loop, process_query_error_eq svc thread_id agent_id q st e0 hR]
    | ok ms =>
      rw [process_query_ok_eq svc thread_id agent_id q st ms hR] at hfail
      simp at hfail
  | cons q1 rest ih =>
    intro st q qs₂ e hok hfail
    cases hR : svc.runResult (st.messages ++ [userMessage q1]) with
    | error e0 =>
      rw [runsOkB, process_query_error_eq svc thread_id agent_id q1 st e0 hR] at hok
      simp at hok
    | ok ms =>
      rw [runsOkB, process_query_ok_eq svc thread_id agent_id q1 st ms hR] at hok
      rw [stateAfter, process_query_ok_eq svc thread_id agent_id q1 st ms hR] at hfail
      rw [List.cons_append, run_loop,
        process_query_ok_eq svc thread_id agent_id q1 st ms hR]
      have hrec := ih ⟨st.messages ++ [userMessage q1] ++ ms⟩ q qs₂ e hok hfail
      simp only [List.append_assoc, List.singleton_append] at hrec
      simp [hrec, query_trace]

/-- The query loop never issues a deletion call. -/
lemma run_loop_no_deletions (svc : Service) (thread_id agent_id : String) :
    ∀ (qs : List String) (st : ThreadState),
      (run_loop svc thread_id agent_id st qs).1.filter isDeletion = [] := by
  intro qs
  induction qs with
  | nil => intro st; simp [run_loop]
  | cons q rest ih =>
    intro st
    cases hR : svc.runResult (st.messages ++ [userMessage q]) with
    | error e =>
      rw [run_loop, process_query_error_eq svc thread_id agent_id q st e hR]
      simp [isDeletion]
    | ok ms =>
      rw [run_loop, process_query_ok_eq svc thread_id agent_id q st ms hR]
      simp [isDeletion, ih]

/-- When all four deletion calls succeed, the teardown issues exactly the
four calls in order thread, agent, file, vector store. -/
lemma teardown_all_ok_eq (d : DeleteBehavior)
    (thread_id agent_id file_id store_id : String)
    (h1 : d.delThread = Except.ok ()) (h2 : d.delAgent = Except.ok ())
    (h3 : d.delFile = Except.ok ()) (h4 : d.delStore = Except.ok ()) :
    teardown d thread_id agent_id file_id store_id =
      ([Event.deleteThread thread_id, Event.deleteAgent agent_id,
        Event.deleteFile file_id, Event.deleteVectorStore store_id],
       Except.ok ()) := by
  simp [teardown, h1, h2, h3, h4]

/-- Filtering the flatMap of per-query patterns for append-message events
yields exactly one append per query carrying that query. -/
lemma filter_query_trace_createMessage (thread_id agent_id : String) :
    ∀ (qs : List String),
      (qs.flatMap (query_trace thread_id agent_id)).filter isCreateMessage =
        qs.map (fun q => Event.createMessage thread_id AuthorRole.USER q) := by
  intro qs
  induction qs with
  | nil => simp
  | cons q rest ih => simp [query_trace, isCreateMessage, ih]

/-- Filtering the flatMap of per-query patterns for run events yields
exactly one run call per query. -/
lemma filter_query_trace_createRun (thread_id agent_id : String) :
    ∀ (qs : List String),
      (qs.flatMap (query_trace thread_id agent_id)).filter isCreateRun =
        List.replicate qs.length (Event.createRun thread_id agent_id) := by
  intro qs
  induction qs with
  | nil => simp
  | cons q rest ih => simp [query_trace, isCreateRun, ih, List.replicate_succ]

/-- Filtering the flatMap of per-query patterns for deletion events yields
nothing: queries never delete. -/
lemma filter_query_trace_deletions (thread_id agent_id : String) :
    ∀ (qs : List String),
      (qs.flatMap (query_trace thread_id agent_id)).filter isDeletion = [] := by
  intro qs
  induction qs with
  | nil => simp
  | cons q rest ih => simp [query_trace, isDeletion, ih]

/-! Concrete oracles used to evaluate the theorems on closed inputs. -/

/-- A remote service whose runs always succeed and append no message. -/
def svcEmptyRun : Service := ⟨fun _ => Except.ok []⟩

/-- A remote service whose runs always fail. -/
def svcBoom : Service := ⟨fun _ => Except.error "boom"⟩

/-- A remote service whose runs append one assistant message carrying two
text content blocks. -/
def svcTwoTextBlocks : Service :=
  ⟨fun _ => Except.ok [⟨AuthorRole.ASSISTANT, [⟨"text", "A"⟩, ⟨"text", "B"⟩]⟩]⟩

/-- A remote service whose runs append one assistant message with no
text-type content block. -/
def svcNoTextBlock : Service :=
  ⟨fun _ => Except.ok [⟨AuthorRole.ASSISTANT, [⟨"image_file", "img"⟩]⟩]⟩

/-- A remote service whose first run succeeds (thread still short) and whose
later runs fail. -/
def svcFailSecond : Service :=
  ⟨fun msgs =>
    if msgs.length ≤ 1 then
      Except.ok [⟨AuthorRole.ASSISTANT, [⟨"text", "ok"⟩]⟩]
    else
      Except.error "rate limit"⟩

/-- Deletion oracle where all four deletion calls succeed. -/
def allOkDeletes : DeleteBehavior :=
  ⟨Except.ok (), Except.ok (), Except.ok (), Except.ok ()⟩

/-- Deletion oracle where the thread deletion raises. -/
def failThreadDelete : DeleteBehavior :=
  ⟨Except.error "denied", Except.ok (), Except.ok (), Except.ok ()⟩

/-! Claim theorems. -/

/-- Claim C1: on every execution of the query loop, whether it completes
normally or exits with an exception, the teardown phase runs and issues the
four deletion calls in exactly the order thread, agent, file, vector store
(assuming the deletion calls themselves succeed): the full trace is the loop
trace followed by exactly those four deletions, and they are the only
deletion events of the trace. -/
theorem teardown_runs_on_every_exit_path
    (svc : Service) (d : DeleteBehavior)
    (thread_id agent_id file_id store_id : String)
    (st : ThreadState) (user_inputs : List String)
    (h1 : d.delThread = Except.ok ()) (h2 : d.delAgent = Except.ok ())
    (h3 : d.delFile = Except.ok ()) (h4 : d.delStore = Except.ok ()) :
    (main_run svc d thread_id agent_id file_id store_id st user_inputs).1 =
      (run_loop svc thread_id agent_id st user_inputs).1 ++
        [Event.deleteThread thread_id, Event.deleteAgent agent_id,
         Event.deleteFile file_id, Event.deleteVectorStore store_id] ∧
    (main_run svc d thread_id agent_id file_id store_id st user_inputs).1.filter
        isDeletion =
      [Event.deleteThread thread_id, Event.deleteAgent agent_id,
       Event.deleteFile file_id, Event.deleteVectorStore store_id] := by
  have htd := teardown_all_ok_eq d thread_id agent_id file_id store_id h1 h2 h3 h4
  constructor
  · simp [main_run, htd]
  · simp [main_run, htd, List.filter_append,
      run_loop_no_deletions svc thread_id agent_id user_inputs st, isDeletion]

/-- Witness for C1 at a concrete input, on the exception path: the run of
the single query fails, yet the trace ends with the four deletions. -/
theorem teardown_runs_on_every_exit_path_witness :
    (allOkDeletes.delThread = Except.ok () ∧ allOkDeletes.delAgent = Except.ok () ∧
     allOkDeletes.delFile = Except.ok () ∧ allOkDeletes.delStore = Except.ok ()) ∧
    ((main_run svcBoom allOkDeletes "t" "a" "f" "s" ⟨[]⟩ ["q"]).1 =
      (run_loop svcBoom "t" "a" ⟨[]⟩ ["q"]).1 ++
        [Event.deleteThread "t", Event.deleteAgent "a",
         Event.deleteFile "f", Event.deleteVectorStore "s"] ∧
     (main_run svcBoom allOkDeletes "t" "a" "f" "s" ⟨[]⟩ ["q"]).1.filter isDeletion =
      [Event.deleteThread "t", Event.deleteAgent "a",
       Event.deleteFile "f", Event.deleteVectorStore "s"]) :=
  ⟨⟨rfl, rfl, rfl, rfl⟩,
   teardown_runs_on_every_exit_path svcBoom allOkDeletes "t" "a" "f" "s" ⟨[]⟩ ["q"]
     rfl rfl rfl rfl⟩

/-- Claim C3: for a sequence of N queries that all succeed, the loop trace
is the concatenation, in input order, of one append-message call carrying
the k-th query, one run call and one list call, all against the single
shared thread id; in particular there are exactly N append calls (the k-th
carrying the k-th query) and exactly N run calls. -/
theorem query_driver_appends_and_runs_in_order
    (svc : Service) (thread_id agent_id : String) (st : ThreadState)
    (qs : List String)
    (hok : runsOkB svc thread_id agent_id st qs = true) :
    (run_loop svc thread_id agent_id st qs).1 =
      qs.flatMap (query_trace thread_id agent_id) ∧
    (run_loop svc thread_id agent_id st qs).1.filter isCreateMessage =
      qs.map (fun q => Event.createMessage thread_id AuthorRole.USER q) ∧
    (run_loop svc thread_id agent_id st qs).1.filter isCreateRun =
      List.replicate qs.length (Event.createRun thread_id agent_id) := by
  have h := run_loop_ok_eq svc thread_id agent_id qs st hok
  refine ⟨by simp [h], ?_, ?_⟩
  · simp [h, filter_query_trace_createMessage thread_id agent_id qs]
  · simp [h, filter_query_trace_createRun thread_id agent_id qs]

/-- Witness for C3 at a concrete input: two queries against a service whose
runs succeed. -/
theorem query_driver_appends_and_runs_in_order_witness :
    runsOkB svcEmptyRun "t" "a" ⟨[]⟩ ["q1", "q2"] = true ∧
    ((run_loop svcEmptyRun "t" "a" ⟨[]⟩ ["q1", "q2"]).1 =
      (["q1", "q2"] : List String).flatMap (query_trace "t" "a") ∧
     (run_loop svcEmptyRun "t" "a" ⟨[]⟩ ["q1", "q2"]).1.filter isCreateMessage =
      (["q1", "q2"] : List String).map
        (fun q => Event.createMessage "t" AuthorRole.USER q) ∧
     (run_loop svcEmptyRun "t" "a" ⟨[]⟩ ["q1", "q2"]).1.filter isCreateRun =
      List.replicate (["q1", "q2"] : List String).length (Event.createRun "t" "a")) :=
  ⟨rfl, query_driver_appends_and_runs_in_order svcEmptyRun "t" "a" ⟨[]⟩ ["q1", "q2"] rfl⟩

/-- Claim C4: if the run of query q fails after a successful prefix qs₁,
the whole trace consists of the prefix's events, the failing query's two
events, and the four deletion calls; the later queries qs₂ contribute
nothing (the trace does not depend on qs₂), exactly qs₁.length + 1
append calls were issued, and each deletion call occurs exactly once, in
order. -/
theorem run_failure_skips_rest_but_cleanup_runs
    (svc : Service) (d : DeleteBehavior)
    (thread_id agent_id file_id store_id : String) (st : ThreadState)
    (qs₁ : List String) (q : String) (qs₂ : List String) (e : String)
    (hok : runsOkB svc thread_id agent_id st qs₁ = true)
    (hfail : (process_query svc thread_id agent_id q
        (stateAfter svc thread_id agent_id st qs₁)).2 = Except.error e)
    (h1 : d.delThread = Except.ok ()) (h2 : d.delAgent = Except.ok ())
    (h3 : d.delFile = Except.ok ()) (h4 : d.delStore = Except.ok ()) :
    (main_run svc d thread_id agent_id file_id store_id st (qs₁ ++ q :: qs₂)).1 =
      qs₁.flatMap (query_trace thread_id agent_id) ++
        [Event.createMessage thread_id AuthorRole.USER q,
         Event.createRun thread_id agent_id] ++
        [Event.deleteThread thread_id, Event.deleteAgent agent_id,
         Event.deleteFile file_id, Event.deleteVectorStore store_id] ∧
    ((main_run svc d thread_id agent_id file_id store_id st
        (qs₁ ++ q :: qs₂)).1.filter isCreateMessage).length = qs₁.length + 1 ∧
    (main_run svc d thread_id agent_id file_id store_id st
        (qs₁ ++ q :: qs₂)).1.filter isDeletion =
      [Event.deleteThread thread_id, Event.deleteAgent agent_id,
       Event.deleteFile file_id, Event.deleteVectorStore store_id] := by
  have hloop := run_loop_error_eq svc thread_id agent_id qs₁ st q qs₂ e hok hfail
  have htd := teardown_all_ok_eq d thread_id agent_id file_id store_id h1 h2 h3 h4
  refine ⟨?_, ?_, ?_⟩
  · simp [main_run, hloop, htd]
  · simp [main_run, hloop, htd, List.filter_append,
      filter_query_trace_createMessage, isCreateMessage, isDeletion]
  · simp [main_run, hloop, htd, List.filter_append,
      filter_query_trace_deletions, isCreateMessage, isDeletion]

/-- Witness for C4 at a concrete input: the first query succeeds, the run of
the second fails, the third query is never attempted, and the four deletions
still fire once each. -/
theorem run_failure_skips_rest_but_cleanup_runs_witness :
    (runsOkB svcFailSecond "t" "a" ⟨[]⟩ ["p"] = true ∧
     (process_query svcFailSecond "t" "a" "q"
        (stateAfter svcFailSecond "t" "a" ⟨[]⟩ ["p"])).2 =
       Except.error "rate limit" ∧
     allOkDeletes.delThread = Except.ok () ∧ allOkDeletes.delAgent = Except.ok () ∧
     allOkDeletes.delFile = Except.ok () ∧ allOkDeletes.delStore = Except.ok ()) ∧
    ((main_run svcFailSecond allOkDeletes "t" "a" "f" "s" ⟨[]⟩
        (["p"] ++ "q" :: ["r"])).1 =
      (["p"] : List String).flatMap (query_trace "t" "a") ++
        [Event.createMessage "t" AuthorRole.USER "q", Event.createRun "t" "a"] ++
        [Event.deleteThread "t", Event.deleteAgent "a",
         Event.deleteFile "f", Event.deleteVectorStore "s"] ∧
     ((main_run svcFailSecond allOkDeletes "t" "a" "f" "s" ⟨[]⟩
        (["p"] ++ "q" :: ["r"])).1.filter isCreateMessage).length =
       (["p"] : List String).length + 1 ∧
     (main_run svcFailSecond allOkDeletes "t" "a" "f" "s" ⟨[]⟩
        (["p"] ++ "q" :: ["r"])).1.filter isDeletion =
      [Event.deleteThread "t", Event.deleteAgent "a",
       Event.deleteFile "f", Event.deleteVectorStore "s"]) :=
  ⟨⟨by decide, rfl, rfl, rfl, rfl, rfl⟩,
   run_failure_skips_rest_but_cleanup_runs svcFailSecond allOkDeletes
     "t" "a" "f" "s" ⟨[]⟩ ["p"] "q" ["r"] "rate limit"
     (by decide) rfl rfl rfl rfl rfl⟩

/-- Claim C2 counterexample: when the run appends one assistant message
carrying two text content blocks, the driver emits both text blocks, not
exactly the first one, so the claim that only the first text block is
emitted is false on the code. -/
theorem answer_first_block_only_counterexample :
    (process_query svcTwoTextBlocks "t" "a" "q" ⟨[]⟩).2 =
      Except.ok
        (⟨[userMessage "q",
           ⟨AuthorRole.ASSISTANT, [⟨"text", "A"⟩, ⟨"text", "B"⟩]⟩]⟩,
         ["A", "B"]) ∧
    (["A", "B"] : List String) ≠ ["A"] :=
  ⟨rfl, by decide⟩

/-- Claim C2 (amended): after a successful run the driver emits the values
of all text-type content blocks of the most recent message (the head of the
newest-first message list), in order, not only the first one. -/
theorem answer_extraction_emits_all_text_blocks
    (svc : Service) (thread_id agent_id user_query : String)
    (st st' : ThreadState) (outs : List String)
    (h : (process_query svc thread_id agent_id user_query st).2 =
      Except.ok (st', outs)) :
    outs = first_msg_text_values st'.messages.reverse := by
  cases hR : svc.runResult (st.messages ++ [userMessage user_query]) with
  | error e =>
    rw [process_query_error_eq svc thread_id agent_id user_query st e hR] at h
    simp at h
  | ok ms =>
    rw [process_query_ok_eq svc thread_id agent_id user_query st ms hR] at h
    simp at h
    obtain ⟨h1, h2⟩ := h
    subst_vars
    simp

/-- Witness for the amended C2 at a concrete input: both text blocks of the
assistant message are emitted. -/
theorem answer_extraction_emits_all_text_blocks_witness :
    (process_query svcTwoTextBlocks "t" "a" "q2" ⟨[]⟩).2 =
      Except.ok
        (⟨[userMessage "q2",
           ⟨AuthorRole.ASSISTANT, [⟨"text", "A"⟩, ⟨"text", "B"⟩]⟩]⟩,
         ["A", "B"]) ∧
    (["A", "B"] : List String) =
      first_msg_text_values
        ((⟨[userMessage "q2",
            ⟨AuthorRole.ASSISTANT, [⟨"text", "A"⟩, ⟨"text", "B"⟩]⟩]⟩ :
          ThreadState)).messages.reverse :=
  ⟨rfl,
   answer_extraction_emits_all_text_blocks svcTwoTextBlocks "t" "a" "q2" ⟨[]⟩
     ⟨[userMessage "q2", ⟨AuthorRole.ASSISTANT, [⟨"text", "A"⟩, ⟨"text", "B"⟩]⟩]⟩
     ["A", "B"] rfl⟩

/-- Claim C5: for every query and context, the augmented prompt decomposes
as fixed glue around the context, then the query, then the fixed fallback
instruction: all three appear verbatim, in that order, with no escaping or
truncation. -/
theorem prompt_augmenter_embeds_in_order (query retrieval_context : String) :
    ∃ s₁ s₂ s₃ s₄ : String,
      build_augmented_prompt query retrieval_context =
        (s₁ ++ retrieval_context ++ s₂) ++ (s₃ ++ query ++ s₄) ++
          fallback_instruction :=
  ⟨"Retrieved Context:\n", "\n\n", "User Query: ", "\n\n", rfl⟩

/-- Claim C6: the driver's first remote call appends a user-role message
whose content is the raw query string itself, and the Prompt Augmenter's
output can never be that content (it is strictly longer than the query), so
the visible client-side flow never uses the augmented prompt as the message
content. -/
theorem driver_appends_raw_query_not_augmented
    (svc : Service) (thread_id agent_id user_query retrieval_context : String)
    (st : ThreadState) :
    (process_query svc thread_id agent_id user_query st).1.head? =
      some (Event.createMessage thread_id AuthorRole.USER user_query) ∧
    build_augmented_prompt user_query retrieval_context ≠ user_query := by
  constructor
  · cases hR : svc.runResult (st.messages ++ [userMessage user_query]) with
    | error e =>
      rw [process_query_error_eq svc thread_id agent_id user_query st e hR]
      rfl
    | ok ms =>
      rw [process_query_ok_eq svc thread_id agent_id user_query st ms hR]
      rfl
  · intro hEq
    have hlen := congrArg String.length hEq
    simp only [build_augmented_prompt, String.length_append] at hlen
    have hq : 0 < ("User Query: " : String).length := by decide
    omega

/-- Witness for C6 at a concrete input. -/
theorem driver_appends_raw_query_not_augmented_witness :
    (process_query svcEmptyRun "t" "a" "hello" ⟨[]⟩).1.head? =
      some (Event.createMessage "t" AuthorRole.USER "hello") ∧
    build_augmented_prompt "hello" "ctx" ≠ "hello" :=
  driver_appends_raw_query_not_augmented svcEmptyRun "t" "a" "hello" "ctx" ⟨[]⟩

/-- Claim C7: when the run succeeds but the most recent message carries no
text-type content block, the driver emits no answer for that query, raises
no error, and the loop continues with the remaining queries. -/
theorem silent_no_result_continues
    (svc : Service) (thread_id agent_id user_query : String)
    (st st' : ThreadState) (outs : List String) (rest : List String)
    (h : (process_query svc thread_id agent_id user_query st).2 =
      Except.ok (st', outs))
    (hnotext : ∀ m, st'.messages.reverse.head? = some m →
      m.content.filter (fun c => c.ctype == "text") = []) :
    outs = [] ∧
    run_loop svc thread_id agent_id st (user_query :: rest) =
      ((process_query svc thread_id agent_id user_query st).1 ++
         (run_loop svc thread_id agent_id st' rest).1,
       (run_loop svc thread_id agent_id st' rest).2) := by
  cases hR : svc.runResult (st.messages ++ [userMessage user_query]) with
  | error e =>
    rw [process_query_error_eq svc thread_id agent_id user_query st e hR] at h
    simp at h
  | ok ms =>
    rw [process_query_ok_eq svc thread_id agent_id user_query st ms hR] at h
    simp at h
    obtain ⟨h1, h2⟩ := h
    subst_vars
    constructor
    · cases hL : ms.reverse ++ userMessage user_query :: st.messages.reverse with
      | nil => simp at hL
      | cons m tail =>
        have hm := hnotext m (by simp [hL])
        simp [first_msg_text_values, hL, hm]
    · rw [run_loop, process_query_ok_eq svc thread_id agent_id user_query st ms hR]
      simp

/-- Witness for C7 at a concrete input: the assistant message has only an
image content block, so nothing is emitted and the loop goes on. -/
theorem silent_no_result_continues_witness :
    ((process_query svcNoTextBlock "t" "a" "q" ⟨[]⟩).2 =
      Except.ok
        (⟨[userMessage "q", ⟨AuthorRole.ASSISTANT, [⟨"image_file", "img"⟩]⟩]⟩,
         []) ∧
     (∀ m,
        ((⟨[userMessage "q", ⟨AuthorRole.ASSISTANT, [⟨"image_file", "img"⟩]⟩]⟩ :
           ThreadState)).messages.reverse.head? = some m →
        m.content.filter (fun c => c.ctype == "text") = [])) ∧
    (([] : List String) = [] ∧
     run_loop svcNoTextBlock "t" "a" ⟨[]⟩ ("q" :: []) =
       ((process_query svcNoTextBlock "t" "a" "q" ⟨[]⟩).1 ++
          (run_loop svcNoTextBlock "t" "a"
            ⟨[userMessage "q", ⟨AuthorRole.ASSISTANT, [⟨"image_file", "img"⟩]⟩]⟩
            []).1,
        (run_loop svcNoTextBlock "t" "a"
          ⟨[userMessage "q", ⟨AuthorRole.ASSISTANT, [⟨"image_file", "img"⟩]⟩]⟩
          []).2)) := by
  have hns : ∀ m,
      ((⟨[userMessage "q", ⟨AuthorRole.ASSISTANT, [⟨"image_file", "img"⟩]⟩]⟩ :
         ThreadState)).messages.reverse.head? = some m →
      m.content.filter (fun c => c.ctype == "text") = [] := by
    intro m hm
    injection hm with h2
    subst h2
    rfl
  exact ⟨⟨rfl, hns⟩,
    silent_no_result_continues svcNoTextBlock "t" "a" "q" ⟨[]⟩
      ⟨[userMessage "q", ⟨AuthorRole.ASSISTANT, [⟨"image_file", "img"⟩]⟩]⟩
      [] [] rfl hns⟩

/-- Claim C8: the provisioner first uploads the local file, then creates a
vector store whose member file ids are exactly the singleton of the returned
file id, and the resources it creates are exactly those two: the uploaded
file and the vector store. -/
theorem provisioner_uploads_then_creates_store (r : RemoteStore) :
    (provision r).1 =
      [Event.uploadFile "document.md" FilePurpose.AGENTS
         (r.upload "document.md" FilePurpose.AGENTS).id,
       Event.createVectorStore [(r.upload "document.md" FilePurpose.AGENTS).id]
         "vector_store"
         (r.createStore [(r.upload "document.md" FilePurpose.AGENTS).id]
           "vector_store")] ∧
    (provision r).2.2.file_ids = [(provision r).2.1.id] ∧
    createdResources (provision r).1 =
      [Resource.file (provision r).2.1.id, Resource.store (provision r).2.2.id] :=
  ⟨rfl, rfl, rfl⟩

/-- Claim C9: the driver never inspects the run outcome beyond success nor
the role of the fetched message: if the run appends no message, the most
recent message is the user message just appended, and its text content (the
raw query) is emitted as if it were the answer. -/
theorem driver_echoes_user_query_when_run_adds_nothing
    (svc : Service) (thread_id agent_id user_query : String) (st : ThreadState)
    (h : svc.runResult (st.messages ++ [userMessage user_query]) = Except.ok []) :
    (process_query svc thread_id agent_id user_query st).2 =
      Except.ok (⟨st.messages ++ [userMessage user_query]⟩, [user_query]) ∧
    ((⟨st.messages ++ [userMessage user_query]⟩ :
       ThreadState)).messages.reverse.head? = some (userMessage user_query) ∧
    (userMessage user_query).role = AuthorRole.USER := by
  refine ⟨?_, ?_, rfl⟩
  · rw [process_query_ok_eq svc thread_id agent_id user_query st [] h]
    simp [first_msg_text_values, userMessage]
  · simp

/-- Witness for C9 at a concrete input: the driver emits the query "hello"
itself as the answer. -/
theorem driver_echoes_user_query_when_run_adds_nothing_witness :
    svcEmptyRun.runResult (([] : List Message) ++ [userMessage "hello"]) =
      Except.ok [] ∧
    ((process_query svcEmptyRun "t" "a" "hello" ⟨[]⟩).2 =
       Except.ok (⟨([] : List Message) ++ [userMessage "hello"]⟩, ["hello"]) ∧
     ((⟨([] : List Message) ++ [userMessage "hello"]⟩ :
        ThreadState)).messages.reverse.head? = some (userMessage "hello") ∧
     (userMessage "hello").role = AuthorRole.USER) :=
  ⟨rfl,
   driver_echoes_user_query_when_run_adds_nothing svcEmptyRun "t" "a" "hello"
     ⟨[]⟩ rfl⟩

/-- Claim C10: the four deletion calls of the teardown are not individually
fault-isolated: when the thread deletion raises, the teardown has issued
only that one call (agent, file and vector store deletions are never
attempted) and the error propagates. -/
theorem teardown_stops_at_first_failed_deletion
    (d : DeleteBehavior) (thread_id agent_id file_id store_id : String)
    (e : String) (h : d.delThread = Except.error e) :
    teardown d thread_id agent_id file_id store_id =
      ([Event.deleteThread thread_id], Except.error e) := by
  simp [teardown, h]

/-- Witness for C10 at a concrete input. -/
theorem teardown_stops_at_first_failed_deletion_witness :
    failThreadDelete.delThread = Except.error "denied" ∧
    teardown failThreadDelete "t" "a" "f" "s" =
      ([Event.deleteThread "t"], Except.error "denied") :=
  ⟨rfl,
   teardown_stops_at_first_failed_deletion failThreadDelete "t" "a" "f" "s"
     "denied" rfl⟩
